import Mathlib

/-!
# Tree-Plantation-Planner — verification of the Recommendation, Lifecycle & Impact Engine

Shallow embedding of the engine code (`user_profile.py`, `recommendation.py`,
`tree_data.py`, `impact_calculator.py`, `guardian_dashboard.py`, `app.py`) in Lean 4.

Modelling conventions:
* Python dates are modelled as day numbers (`Int`); `datetime.now().date()` becomes an
  explicit `today : Int` parameter, and `(today - last).days` becomes integer subtraction.
* Python floats (the illustrative impact coefficients) are modelled as exact rationals.
* Python dicts used as records become structures; an optional dict key becomes `Option`.
* Python `sub in s` on strings becomes `strContains s sub` (contiguous-run containment on the char lists).
* `sorted(..., key=k, reverse=True)` / `list.sort(key=k, reverse=True)` — the stable
  descending Python sort — becomes `List.mergeSort` with the ≥-on-key comparator (also stable).
* UI-only effects (`st.balloons`, `st.success`, `st.toast`) are dropped; everything the
  engine stores in `st.session_state` is carried in explicit state structures.
-/

namespace TreePlanner

/-- `needle` occurs as a contiguous run inside `hay`. -/
def listContainsSeq (needle : List Char) : List Char → Bool
  | [] => needle.isEmpty
  | c :: cs => needle.isPrefixOf (c :: cs) || listContainsSeq needle cs

/-- Python `sub in s` (substring containment). -/
def strContains (s sub : String) : Bool := listContainsSeq sub.toList s.toList

/-! ## Data model (`user_profile.py`, `app.py` session state) -/

/-- An entry of the profile badge list (`user_profile.py:47-52`);
`earned_date` is the day the badge was stamped. -/
structure BadgeEntry where
  name : String
  icon : String
  description : String
  earned_date : Int
deriving DecidableEq, Repr

/-- The `st.session_state.user_profile` dict (`user_profile.py:11-23`), restricted to the
fields the engine reads or writes.  `last_active_date` is `none` when the stored string is
absent or unparseable (the `except` branch of `update_streak`). -/
structure UserProfile where
  username : String
  level : Nat
  xp : Nat
  green_score : Int
  trees_planted : Nat
  streak_days : Nat
  last_active_date : Option Int
  badges : List BadgeEntry
  total_co2_offset : ℚ
deriving DecidableEq

/-- One entry of `st.session_state.planted_trees`.  `status`, `health` and
`space_required` model optional dict keys (`tree.get(...)` and key-presence tests). -/
structure PlantedTree where
  id : String
  name : String
  status : Option String
  health : Option String
  space_required : Option String
deriving DecidableEq, Repr

/-- The slice of `st.session_state` the gamification engine touches. -/
structure Session where
  user_profile : UserProfile
  planted_trees : List PlantedTree
deriving DecidableEq

/-- `initialize_user_profile` (`user_profile.py:8-23`): the fresh profile, with
`join_date`/`last_active_date` stamped `today`. -/
def initial_user_profile (today : Int) : UserProfile :=
  { username := "Green Enthusiast"
    level := 1
    xp := 0
    green_score := 0
    trees_planted := 0
    streak_days := 0
    last_active_date := some today
    badges := []
    total_co2_offset := 0 }

/-- Badge names currently held (the `existing_badges` list, `user_profile.py:44`). -/
def badge_names (s : Session) : List String :=
  s.user_profile.badges.map BadgeEntry.name

/-- A concrete garden of `k` tracked Neem plants, used to instantiate theorems. -/
def sample_plants (k : Nat) : List PlantedTree :=
  (List.range k).map (fun i => ⟨toString i, "Neem", none, none, none⟩)

/-! ## Gamification operations (`user_profile.py`) -/

/-- `add_xp` (`user_profile.py:26-38`): adds `amount` to `xp`, then — with a single `if`,
not a loop — bumps `level` once when the new total reaches `level * 500`. -/
def add_xp (amount : Nat) (s : Session) : Session :=
  let p := s.user_profile
  let xp1 := p.xp + amount
  let xp_for_next_level := p.level * 500
  let level1 := if xp_for_next_level ≤ xp1 then p.level + 1 else p.level
  { s with user_profile := { p with xp := xp1, level := level1 } }

/-- `award_badge` (`user_profile.py:41-55`): a no-op when the name is already held,
otherwise appends the badge stamped `today` and grants +50 XP via `add_xp`. -/
def award_badge (badge_name badge_icon badge_description : String) (today : Int)
    (s : Session) : Session :=
  let p := s.user_profile
  if badge_name ∈ badge_names s then s
  else
    add_xp 50
      { s with user_profile :=
          { p with badges :=
              p.badges ++ [⟨badge_name, badge_icon, badge_description, today⟩] } }

/-- `update_streak` (`user_profile.py:121-153`).  The date parse failure and the missing
`last_active_date` both reset the streak to 1 (`except` / `else` branches); they are both
modelled by `last_active_date = none`.  Finally `last_active_date` is set to `today`. -/
def update_streak (today : Int) (s : Session) : Session :=
  let p := s.user_profile
  let s1 :=
    match p.last_active_date with
    | none => { s with user_profile := { p with streak_days := 1 } }
    | some last_date =>
      let days_diff := today - last_date
      if days_diff = 0 then s
      else if days_diff = 1 then
        let streak1 := p.streak_days + 1
        let s2 := { s with user_profile := { p with streak_days := streak1 } }
        if streak1 = 7 ∨ streak1 = 30 ∨ streak1 = 100 then
          let s3 := add_xp (streak1 * 10) s2
          if streak1 = 7 then
            award_badge "Week Warrior" "🔥" "Logged in for 7 consecutive days" today s3
          else s3
        else s2
      else { s with user_profile := { p with streak_days := 1 } }
  let p1 := s1.user_profile
  { s1 with user_profile := { p1 with last_active_date := some today } }

/-- `check_and_award_badges` (`user_profile.py:156-186`), first five rules:
First Sprout, Tree Hugger, Green Thumb, Balcony Boss, Carbon Hero.  (Split out so the
level that the final Rising Star rule reads — after any +50 XP badge bonuses — is
nameable.) -/
def check_badges_pre_rising (today : Int) (s : Session) : Session :=
  let planted_count := s.planted_trees.length
  let s1 := if 1 ≤ planted_count then
      award_badge "First Sprout" "🌱" "Planted your first tree!" today s else s
  let s2 := if 10 ≤ planted_count then
      award_badge "Tree Hugger" "🌳" "Tracked 10 trees!" today s1 else s1
  let excellent_plants := s2.planted_trees.filter (fun p => p.health = some "Excellent")
  let s3 := if 5 ≤ excellent_plants.length then
      award_badge "Green Thumb" "💚" "5 plants in excellent health!" today s2 else s2
  let balcony_plants := s3.planted_trees.filter (fun p => p.space_required.isSome)
  let s4 := if 5 ≤ balcony_plants.length then
      award_badge "Balcony Boss" "🏙️" "Created a balcony garden!" today s3 else s3
  if (100 : ℚ) ≤ s4.user_profile.total_co2_offset then
    award_badge "Carbon Hero" "🌍" "Offset 100 kg of CO₂!" today s4
  else s4

/-- `check_and_award_badges` (`user_profile.py:156-186`): the five rules above, then
Rising Star when the (possibly just-bumped) level is ≥ 3.  There is no Week Warrior rule
here — that badge is granted only inside `update_streak`. -/
def check_and_award_badges (today : Int) (s : Session) : Session :=
  let s5 := check_badges_pre_rising today s
  if 3 ≤ s5.user_profile.level then
    award_badge "Rising Star" "⭐" "Reached Level 3!" today s5
  else s5

/-- Modelled from the spec (§4.4 `addXP`), for comparison with `add_xp` as coded:
the level-up check done *iteratively*, one increment per 500-XP threshold crossed.
`fuel` bounds the loop; `xp + 1` passes always suffice since each pass raises `level`. -/
def spec_level_loop : Nat → Nat → Nat → Nat
  | 0, level, _ => level
  | fuel + 1, level, xp => if level * 500 ≤ xp then spec_level_loop fuel (level + 1) xp else level

/-- Modelled from the spec (§4.4 `addXP`): resulting `(level, xp)` when the level-up
check is applied iteratively as the words of the spec require. -/
def spec_add_xp (amount : Nat) (level xp : Nat) : Nat × Nat :=
  let xp1 := xp + amount
  (spec_level_loop (xp1 + 1) level xp1, xp1)

/-! ## Impact calculator (`impact_calculator.py`)

The Python float coefficients are modelled as exact rationals. -/

/-- The dict inside `get_base_carbon` (`impact_calculator.py:51-111`). -/
def carbon_values : List (String × ℚ) := [
  ("Neem", 15.3),
  ("Banyan", 22.1),
  ("Arjuna", 16.5),
  ("Peepal", 21.2),
  ("Gulmohar", 12.8),
  ("Ashoka", 10.2),
  ("Mango", 14.7),
  ("Amaltas", 11.6),
  ("Jamun", 13.9),
  ("Amla", 10.8),
  ("Silver Oak", 18.4),
  ("Eucalyptus", 20.6),
  ("Guava (Amrood)", 12.5),
  ("Papaya (Papita)", 10.0),
  ("Pomegranate (Anar)", 11.0),
  ("Drumstick (Moringa)", 17.5),
  ("Curry Tree (Kadi Patta)", 9.0),
  ("Jackfruit", 28.0),
  ("Coconut Palm", 32.0),
  ("Neem (Outdoor)", 15.3),
  ("Bamboo", 35.0),
  ("Rain Tree (Samanea)", 24.0),
  ("Gulmohar (Flame Tree)", 12.8),
  ("Jacaranda", 14.0),
  ("Bakul (Mimusops)", 13.5),
  ("Snake Plant (Sansevieria)", 2.0),
  ("Tulsi (Holy Basil)", 1.5),
  ("Money Plant (Pothos)", 1.8),
  ("Aloe Vera", 1.2),
  ("Mint (Pudina)", 0.8),
  ("Spider Plant", 1.6),
  ("Coriander (Dhania)", 0.5),
  ("Peace Lily", 1.9),
  ("Tomato (Dwarf Variety)", 1.0),
  ("Areca Palm", 3.5),
  ("Curry Leaves (Kadi Patta)", 2.2),
  ("Jade Plant", 1.1),
  ("Rubber Plant", 3.0),
  ("Boston Fern", 1.7),
  ("Lavender", 0.9),
  ("Rosemary", 1.0),
  ("Brahmi (Bacopa)", 0.7),
  ("Ashwagandha (Indian Ginseng)", 1.3),
  ("Stevia (Sweet Leaf)", 0.8),
  ("Lemongrass (Hari Chai Patti)", 1.4),
  ("Ajwain (Carom Plant)", 0.6),
  ("Methi (Fenugreek)", 0.5),
  ("Ginger (Adrak)", 1.1),
  ("Turmeric (Haldi)", 1.2),
  ("Insulin Plant (Costus)", 1.5),
  ("Hibiscus (Gudhal)", 2.8),
  ("English Ivy", 1.6)]

/-- The dict inside `get_base_oxygen` (`impact_calculator.py:128-188`). -/
def oxygen_values : List (String × ℚ) := [
  ("Neem", 20.7),
  ("Banyan", 29.8),
  ("Arjuna", 22.3),
  ("Peepal", 28.6),
  ("Gulmohar", 17.3),
  ("Ashoka", 13.8),
  ("Mango", 19.8),
  ("Amaltas", 15.7),
  ("Jamun", 18.7),
  ("Amla", 14.6),
  ("Silver Oak", 24.8),
  ("Eucalyptus", 27.8),
  ("Guava (Amrood)", 16.8),
  ("Papaya (Papita)", 13.5),
  ("Pomegranate (Anar)", 14.8),
  ("Drumstick (Moringa)", 23.6),
  ("Curry Tree (Kadi Patta)", 12.1),
  ("Jackfruit", 37.8),
  ("Coconut Palm", 43.2),
  ("Neem (Outdoor)", 20.7),
  ("Bamboo", 47.2),
  ("Rain Tree (Samanea)", 32.4),
  ("Gulmohar (Flame Tree)", 17.3),
  ("Jacaranda", 18.9),
  ("Bakul (Mimusops)", 18.2),
  ("Snake Plant (Sansevieria)", 2.7),
  ("Tulsi (Holy Basil)", 2.0),
  ("Money Plant (Pothos)", 2.4),
  ("Aloe Vera", 1.6),
  ("Mint (Pudina)", 1.1),
  ("Spider Plant", 2.2),
  ("Coriander (Dhania)", 0.7),
  ("Peace Lily", 2.6),
  ("Tomato (Dwarf Variety)", 1.4),
  ("Areca Palm", 4.7),
  ("Curry Leaves (Kadi Patta)", 3.0),
  ("Jade Plant", 1.5),
  ("Rubber Plant", 4.0),
  ("Boston Fern", 2.3),
  ("Lavender", 1.2),
  ("Rosemary", 1.4),
  ("Brahmi (Bacopa)", 0.9),
  ("Ashwagandha (Indian Ginseng)", 1.8),
  ("Stevia (Sweet Leaf)", 1.1),
  ("Lemongrass (Hari Chai Patti)", 1.9),
  ("Ajwain (Carom Plant)", 0.8),
  ("Methi (Fenugreek)", 0.7),
  ("Ginger (Adrak)", 1.5),
  ("Turmeric (Haldi)", 1.6),
  ("Insulin Plant (Costus)", 2.0),
  ("Hibiscus (Gudhal)", 3.8),
  ("English Ivy", 2.2)]

/-- The dict inside `get_base_pollutants` (`impact_calculator.py:205-265`). -/
def pollutant_values : List (String × ℚ) := [
  ("Neem", 135.6),
  ("Banyan", 187.5),
  ("Arjuna", 124.8),
  ("Peepal", 173.4),
  ("Gulmohar", 95.2),
  ("Ashoka", 82.6),
  ("Mango", 108.3),
  ("Amaltas", 91.4),
  ("Jamun", 103.7),
  ("Amla", 87.2),
  ("Silver Oak", 132.8),
  ("Eucalyptus", 128.5),
  ("Guava (Amrood)", 98.5),
  ("Papaya (Papita)", 75.0),
  ("Pomegranate (Anar)", 85.3),
  ("Drumstick (Moringa)", 142.0),
  ("Curry Tree (Kadi Patta)", 68.0),
  ("Jackfruit", 220.0),
  ("Coconut Palm", 245.0),
  ("Neem (Outdoor)", 135.6),
  ("Bamboo", 280.0),
  ("Rain Tree (Samanea)", 195.0),
  ("Gulmohar (Flame Tree)", 95.2),
  ("Jacaranda", 112.0),
  ("Bakul (Mimusops)", 105.0),
  ("Snake Plant (Sansevieria)", 18.0),
  ("Tulsi (Holy Basil)", 15.0),
  ("Money Plant (Pothos)", 22.0),
  ("Aloe Vera", 12.0),
  ("Mint (Pudina)", 8.0),
  ("Spider Plant", 20.0),
  ("Coriander (Dhania)", 5.0),
  ("Peace Lily", 25.0),
  ("Tomato (Dwarf Variety)", 10.0),
  ("Areca Palm", 30.0),
  ("Curry Leaves (Kadi Patta)", 16.0),
  ("Jade Plant", 11.0),
  ("Rubber Plant", 35.0),
  ("Boston Fern", 28.0),
  ("Lavender", 9.0),
  ("Rosemary", 10.0),
  ("Brahmi (Bacopa)", 7.0),
  ("Ashwagandha (Indian Ginseng)", 13.0),
  ("Stevia (Sweet Leaf)", 8.0),
  ("Lemongrass (Hari Chai Patti)", 14.0),
  ("Ajwain (Carom Plant)", 6.0),
  ("Methi (Fenugreek)", 5.0),
  ("Ginger (Adrak)", 11.0),
  ("Turmeric (Haldi)", 12.0),
  ("Insulin Plant (Costus)", 15.0),
  ("Hibiscus (Gudhal)", 26.0),
  ("English Ivy", 24.0)]

/-- `get_base_carbon` (`impact_calculator.py:40-114`): table value, or default 5.0. -/
def get_base_carbon (tree_name : String) : ℚ :=
  (carbon_values.lookup tree_name).getD 5.0

/-- `get_base_oxygen` (`impact_calculator.py:117-191`): table value, or default 8.0. -/
def get_base_oxygen (tree_name : String) : ℚ :=
  (oxygen_values.lookup tree_name).getD 8.0

/-- `get_base_pollutants` (`impact_calculator.py:194-268`): table value, or default 50.0. -/
def get_base_pollutants (tree_name : String) : ℚ :=
  (pollutant_values.lookup tree_name).getD 50.0

/-- The dict inside `get_growth_factor` (`impact_calculator.py:282-288`). -/
def growth_factors : List (String × ℚ) :=
  [("Newly Planted", 0.1),
   ("Seedling", 0.3),
   ("Sapling", 0.5),
   ("Young Tree", 0.8),
   ("Mature Tree", 1.0)]

/-- `get_growth_factor` (`impact_calculator.py:271-291`): factor for the stage,
or default 0.5 when the stage string is not in the table. -/
def get_growth_factor (status : String) : ℚ :=
  (growth_factors.lookup status).getD 0.5

/-- The dict returned by `calculate_impact` (`impact_calculator.py:33-37`). -/
structure ImpactResult where
  carbon_sequestered : ℚ
  oxygen_produced : ℚ
  pollutants_removed : ℚ
deriving DecidableEq

/-- One iteration of the `calculate_impact` loop (`impact_calculator.py:17-30`), with the
`tree.get("status", "Newly Planted")` default for a missing status key. -/
def impact_step (acc : ImpactResult) (tree : PlantedTree) : ImpactResult :=
  let base_carbon := get_base_carbon tree.name
  let base_oxygen := get_base_oxygen tree.name
  let base_pollutants := get_base_pollutants tree.name
  let growth_factor := get_growth_factor (tree.status.getD "Newly Planted")
  { carbon_sequestered := acc.carbon_sequestered + base_carbon * growth_factor
    oxygen_produced := acc.oxygen_produced + base_oxygen * growth_factor
    pollutants_removed := acc.pollutants_removed + base_pollutants * growth_factor }

/-- `calculate_impact` (`impact_calculator.py:1-37`): the accumulation loop from the
zero-initialised metrics. -/
def calculate_impact (planted_trees : List PlantedTree) : ImpactResult :=
  planted_trees.foldl impact_step ⟨0, 0, 0⟩

/-- Per-plant carbon contribution (one loop iteration of `calculate_impact`). -/
def carbon_contribution (tree : PlantedTree) : ℚ :=
  get_base_carbon tree.name * get_growth_factor (tree.status.getD "Newly Planted")

/-- Per-plant oxygen contribution (one loop iteration of `calculate_impact`). -/
def oxygen_contribution (tree : PlantedTree) : ℚ :=
  get_base_oxygen tree.name * get_growth_factor (tree.status.getD "Newly Planted")

/-- Per-plant pollutant contribution (one loop iteration of `calculate_impact`). -/
def pollutant_contribution (tree : PlantedTree) : ℚ :=
  get_base_pollutants tree.name * get_growth_factor (tree.status.getD "Newly Planted")

/-! ## Reference catalog (`tree_data.py`) -/

/-- One entry of the `trees` list in `get_tree_data` (`tree_data.py:8-201`), restricted
to the fields the scoring engine reads (the purely descriptive fields — scientific name,
height, lifespan, benefits text, maintenance level — are dropped). -/
structure Tree where
  id : Nat
  name : String
  climate_suitability : List String
  soil_suitability : List String
  drought_tolerance : String
  water_needs : String
  purposes : List String
deriving DecidableEq, Repr

/-- `get_tree_data` (`tree_data.py:3-203`). -/
def get_tree_data : List Tree := [
  ⟨1, "Neem", ["Tropical", "Subtropical"], ["Loamy", "Sandy", "Clay"], "High", "Low",
    ["Air Purification", "Shade", "Medicinal", "Carbon Sequestration"]⟩,
  ⟨2, "Banyan", ["Tropical", "Subtropical"], ["Loamy", "Clay"], "Medium", "Medium",
    ["Shade", "Biodiversity", "Carbon Sequestration"]⟩,
  ⟨3, "Arjuna", ["Tropical", "Subtropical"], ["Loamy", "Sandy", "Riverbed"], "Medium", "Medium",
    ["Medicinal", "Biodiversity", "Carbon Sequestration", "Erosion Control"]⟩,
  ⟨4, "Peepal", ["Tropical", "Subtropical"], ["Loamy", "Sandy", "Clay"], "High", "Low",
    ["Air Purification", "Shade", "Biodiversity", "Carbon Sequestration"]⟩,
  ⟨5, "Gulmohar", ["Tropical", "Subtropical"], ["Loamy", "Sandy"], "High", "Low",
    ["Shade", "Ornamental", "Air Purification"]⟩,
  ⟨6, "Ashoka", ["Tropical", "Subtropical"], ["Loamy", "Clay"], "Low", "High",
    ["Medicinal", "Ornamental", "Air Purification"]⟩,
  ⟨7, "Mango", ["Tropical", "Subtropical"], ["Loamy", "Sandy", "Clay"], "Medium", "Medium",
    ["Fruit Production", "Shade", "Biodiversity"]⟩,
  ⟨8, "Amaltas", ["Tropical", "Subtropical"], ["Loamy", "Sandy"], "High", "Low",
    ["Medicinal", "Ornamental", "Soil Improvement"]⟩,
  ⟨9, "Jamun", ["Tropical", "Subtropical"], ["Loamy", "Sandy", "Clay"], "Medium", "Medium",
    ["Fruit Production", "Shade", "Carbon Sequestration"]⟩,
  ⟨10, "Amla", ["Tropical", "Subtropical", "Temperate"], ["Loamy", "Sandy", "Rocky"], "High", "Low",
    ["Fruit Production", "Medicinal", "Soil Improvement"]⟩,
  ⟨11, "Silver Oak", ["Tropical", "Subtropical", "Temperate"], ["Loamy", "Sandy"], "High", "Low",
    ["Windbreak", "Shade", "Timber"]⟩,
  ⟨12, "Eucalyptus", ["Tropical", "Subtropical", "Temperate"], ["Loamy", "Sandy", "Clay"], "High", "Low",
    ["Carbon Sequestration", "Timber", "Medicinal"]⟩]

/-- One entry of `get_balcony_plants_data` (`tree_data.py:220-374`), restricted to the
fields `get_balcony_recommendations` reads. -/
structure BalconyPlant where
  name : String
  space_required : String
  sunlight_need : String
  purposes : List String
  care_difficulty : String
deriving DecidableEq, Repr

/-- `get_balcony_plants_data` (`tree_data.py:220-374`). -/
def get_balcony_plants_data : List BalconyPlant := [
  ⟨"Snake Plant (Sansevieria)", "Very Small", "Low (2-6 hours)",
    ["Air Purification", "Low Maintenance"], "Very Easy"⟩,
  ⟨"Tulsi (Holy Basil)", "Small", "High (6+ hours)",
    ["Medicinal", "Edible", "Air Purification"], "Easy"⟩,
  ⟨"Money Plant (Pothos)", "Very Small", "Low to Medium (2-6 hours)",
    ["Air Purification", "Aesthetic/Decor", "Low Maintenance"], "Very Easy"⟩,
  ⟨"Aloe Vera", "Small", "High (6+ hours)",
    ["Medicinal", "Low Maintenance"], "Easy"⟩,
  ⟨"Mint (Pudina)", "Small", "Medium (4-6 hours)",
    ["Edible", "Medicinal"], "Easy"⟩,
  ⟨"Spider Plant", "Small", "Low to Medium (2-6 hours)",
    ["Air Purification", "Low Maintenance", "Aesthetic/Decor"], "Very Easy"⟩,
  ⟨"Coriander (Dhania)", "Small", "Medium (4-6 hours)",
    ["Edible"], "Easy"⟩,
  ⟨"Peace Lily", "Small to Medium", "Low (2-4 hours)",
    ["Air Purification", "Aesthetic/Decor"], "Easy"⟩,
  ⟨"Tomato (Dwarf Variety)", "Medium", "High (6-8 hours)",
    ["Edible"], "Medium"⟩,
  ⟨"Areca Palm", "Medium to Large", "Medium (4-6 hours)",
    ["Air Purification", "Aesthetic/Decor"], "Medium"⟩]

/-! ## Outdoor recommendation (`recommendation.py:5-68`) -/

/-- The climate dict consumed by `get_recommendations`: `climate_zone`,
`annual_rainfall`, and the optional `pollution_level` key. -/
structure ClimateData where
  climate_zone : String
  annual_rainfall : Int
  pollution_level : Option String
deriving DecidableEq, Repr

/-- The soil dict consumed by `get_recommendations`. -/
structure SoilData where
  soil_type : String
deriving DecidableEq, Repr

/-- A tree dict as returned by `get_recommendations`: the fallback branch returns catalog
entries without a `recommendation_score` key (`none`), the scored branch returns copies
carrying the key (`some`). -/
structure RecTree where
  tree : Tree
  recommendation_score : Option Nat
deriving DecidableEq, Repr

/-- The climate hard-filter (`recommendation.py:20-23`). -/
def climate_suitable_trees (climate_data : ClimateData) : List Tree :=
  get_tree_data.filter (fun t => climate_data.climate_zone ∈ t.climate_suitability)

/-- The soil hard-filter over the climate survivors (`recommendation.py:26-29`). -/
def soil_suitable_trees (climate_data : ClimateData) (soil_data : SoilData) : List Tree :=
  (climate_suitable_trees climate_data).filter
    (fun t => soil_data.soil_type ∈ t.soil_suitability)

/-- The score computed for one tree (`recommendation.py:38-57`). -/
def score_tree (climate_data : ClimateData) (tree : Tree) : Nat :=
  let s0 : Nat := 0
  let s1 := if climate_data.annual_rainfall < 800 then
      (if tree.drought_tolerance = "High" then s0 + 3
       else if tree.drought_tolerance = "Medium" then s0 + 1
       else s0)
    else s0
  let s2 := if climate_data.annual_rainfall > 1500 then
      (if tree.water_needs = "High" then s1 + 2
       else if tree.water_needs = "Medium" then s1 + 1
       else s1)
    else s1
  match climate_data.pollution_level with
  | some pl => if pl = "High" ∧ "Air Purification" ∈ tree.purposes then s2 + 3 else s2
  | none => s2

/-- The `scored_trees` list (`recommendation.py:36-62`): each soil survivor copied with
its `recommendation_score`. -/
def scored_trees (climate_data : ClimateData) (soil_data : SoilData) : List RecTree :=
  (soil_suitable_trees climate_data soil_data).map
    (fun t => ⟨t, some (score_tree climate_data t)⟩)

/-- The comparator of `sorted(scored_trees, key=lambda x: x["recommendation_score"],
reverse=True)`: descending on score.  (The Python sort and `List.mergeSort` are both
stable, so ties keep catalog insertion order under either.) -/
def rec_le (a b : RecTree) : Bool :=
  decide (b.recommendation_score.getD 0 ≤ a.recommendation_score.getD 0)

/-- `get_recommendations` (`recommendation.py:5-68`). -/
def get_recommendations (climate_data : ClimateData) (soil_data : SoilData) : List RecTree :=
  if (soil_suitable_trees climate_data soil_data).length < 3 then
    (climate_suitable_trees climate_data).map (fun t => ⟨t, none⟩)
  else
    (scored_trees climate_data soil_data).mergeSort rec_le

/-! ## Balcony recommendation (`recommendation.py:71-125`) -/

/-- The `space_map` lookup plus string-to-list wrapping (`recommendation.py:81-90`),
including the `.get(..., ["Small"])` default. -/
def space_map (space_size : String) : List String :=
  if space_size = "Very Small (≤ 0.5 m²)" then ["Very Small"]
  else if space_size = "Small (0.5-2 m²)" then ["Small"]
  else if space_size = "Medium (2-5 m²)" then ["Small", "Medium"]
  else if space_size = "Large (>5 m²)" then ["Small", "Medium", "Large"]
  else ["Small"]

/-- The filter loop body (`recommendation.py:92-110`): a plant is kept iff no `continue`
fires (space, then sunlight, then the purpose check). -/
def balcony_keep (sunlight_hours : Int) (purposes : List String)
    (allowed_spaces : List String) (plant : BalconyPlant) : Bool :=
  if plant.space_required ∉ allowed_spaces then false
  else if sunlight_hours < 4 ∧ ¬ strContains plant.sunlight_need "Low" then false
  else if 6 ≤ sunlight_hours ∧ ¬ strContains plant.sunlight_need "High"
          ∧ ¬ (sunlight_hours < 8) then false
  else if purposes ≠ [] then purposes.any (fun purpose => purpose ∈ plant.purposes)
  else true

/-- The suitability score (`recommendation.py:113-120`). -/
def balcony_score (purposes : List String) (plant : BalconyPlant) : Nat :=
  let s0 := if plant.care_difficulty = "Very Easy" ∨ plant.care_difficulty = "Easy"
    then 2 else 0
  if purposes ≠ [] then
    s0 + (purposes.countP (fun p => p ∈ plant.purposes)) * 3
  else s0

/-- A balcony plant dict carrying the `suitability_score` key added in the scoring pass. -/
structure ScoredBalconyPlant where
  plant : BalconyPlant
  suitability_score : Nat
deriving DecidableEq, Repr

/-- The comparator of `recommendations.sort(key=lambda x: x["suitability_score"],
reverse=True)`: descending on score (stable, as in Python). -/
def balcony_le (a b : ScoredBalconyPlant) : Bool :=
  decide (b.suitability_score ≤ a.suitability_score)

/-- `get_balcony_recommendations` (`recommendation.py:71-125`): filter, score, stable
descending sort, truncate to the top 9. -/
def get_balcony_recommendations (space_size : String) (sunlight_hours : Int)
    (purposes : List String) : List ScoredBalconyPlant :=
  let allowed_spaces := space_map space_size
  let recommendations :=
    get_balcony_plants_data.filter (balcony_keep sunlight_hours purposes allowed_spaces)
  let scored := recommendations.map (fun pl => ⟨pl, balcony_score purposes pl⟩)
  (scored.mergeSort balcony_le).take 9

/-! ## Care suggestion (`guardian_dashboard.py:144-192`) -/

/-- One entry of a watering log as `suggest_next_action` dispatches on it:
a timestamp that resolves to a day number, or a malformed entry (a dict, or a string
`datetime.fromisoformat` rejects), which short-circuits to the generic message. -/
inductive WateringEntry where
  | timestamp (day : Int) : WateringEntry
  | malformed : WateringEntry
deriving DecidableEq, Repr

/-- The frequent-watering (balcony) class test (`guardian_dashboard.py:177`):
`any(x in plant_name for x in [...])`. -/
def is_frequent_class (plant_name : String) : Bool :=
  ["Snake Plant", "Tulsi", "Mint", "Aloe", "Spider", "Money", "Jade", "Peace Lily"].any
    (fun x => strContains plant_name x)

/-- `suggest_next_action` (`guardian_dashboard.py:144-192`).  `today - last` models
`(datetime.now() - last_watered).days`.  Note the source checks `days_since >= 3` (resp.
`>= 7`) *before* `days_since >= 14` (resp. `>= 21`), exactly as embedded here. -/
def suggest_next_action (plant_name : String) (logs : List WateringEntry)
    (today : Int) : String :=
  match logs.getLast? with
  | none => "💧 Water your plant for the first time!"
  | some WateringEntry.malformed => "💧 Water your plant regularly"
  | some (WateringEntry.timestamp last_watered) =>
    let days_since := today - last_watered
    if is_frequent_class plant_name then
      if 3 ≤ days_since then s!"💧 Water needed! Last watered {days_since} days ago"
      else if 14 ≤ days_since then "🌱 Time to add fertilizer"
      else "✅ All good! Check again tomorrow"
    else
      if 7 ≤ days_since then s!"💧 Water needed! Last watered {days_since} days ago"
      else if 21 ≤ days_since then "🌱 Consider adding organic fertilizer"
      else "✅ Doing great! Water in a few days"

/-! ## Explorer/Guardian mode (`app.py`, `guardian_dashboard.py`) -/

/-- `detect_user_state` (`app.py:380-387`): the pure derivation from the plant count. -/
def detect_user_state (planted_trees : List PlantedTree) : String :=
  if planted_trees.length = 0 then "EXPLORER" else "GUARDIAN"

/-- The slice of `st.session_state` relevant to the mode: the tracked plants and the
*stored* `user_state` flag (`app.py:1055`). -/
structure AppSession where
  planted_trees : List PlantedTree
  user_state : String
deriving DecidableEq, Repr

/-- `add_plant_to_garden_safe` (`app.py:118-144`), in-memory part: append the plant and
force the stored flag to GUARDIAN (`app.py:130`). -/
def add_plant_to_garden_safe (plant : PlantedTree) (s : AppSession) : AppSession :=
  { planted_trees := s.planted_trees ++ [plant], user_state := "GUARDIAN" }

/-- The confirmed-removal branch (`guardian_dashboard.py:377-389`): filter the plant
out and set the stored flag to EXPLORER only when no plants remain. -/
def remove_plant (plant_id : String) (s : AppSession) : AppSession :=
  let remaining := s.planted_trees.filter (fun p => p.id ≠ plant_id)
  { planted_trees := remaining
    user_state := if remaining.length = 0 then "EXPLORER" else s.user_state }

/-- The login-time garden load (`app.py:470-488`): a non-empty load sets GUARDIAN,
otherwise the session starts empty as EXPLORER. -/
def load_login_session (loaded_trees : List PlantedTree) (s : AppSession) : AppSession :=
  if 0 < loaded_trees.length then { s with planted_trees := loaded_trees, user_state := "GUARDIAN" }
  else { s with planted_trees := [], user_state := "EXPLORER" }

/-- The sidebar state badge (`app.py:1135-1147`): the displayed mode branches on the
*stored* `user_state` flag, not on the plant count. -/
def sidebar_mode (s : AppSession) : String :=
  if s.user_state = "EXPLORER" then "EXPLORER" else "GUARDIAN"

/-- The flag-vs-derivation consistency predicate: the stored `user_state` agrees with
`detect_user_state` of the owned plants. -/
def mode_consistent (s : AppSession) : Prop :=
  s.user_state = detect_user_state s.planted_trees

instance (s : AppSession) : Decidable (mode_consistent s) := by
  unfold mode_consistent; infer_instance

/-! ## Helper lemmas -/

/-- The impact loop from any accumulator adds the per-plant contribution sums. -/
theorem foldl_impact_step (plants : List PlantedTree) (acc : ImpactResult) :
    plants.foldl impact_step acc =
      ⟨acc.carbon_sequestered + (plants.map carbon_contribution).sum,
       acc.oxygen_produced + (plants.map oxygen_contribution).sum,
       acc.pollutants_removed + (plants.map pollutant_contribution).sum⟩ := by
  induction plants generalizing acc with
  | nil => simp
  | cons p ps ih =>
    simp only [List.foldl_cons, List.map_cons, List.sum_cons, ih]
    simp [impact_step, carbon_contribution, oxygen_contribution, pollutant_contribution,
      add_assoc]

/-- `calculate_impact` as an elementwise sum of per-plant contributions. -/
theorem calculate_impact_eq (plants : List PlantedTree) :
    calculate_impact plants =
      ⟨(plants.map carbon_contribution).sum,
       (plants.map oxygen_contribution).sum,
       (plants.map pollutant_contribution).sum⟩ := by
  simpa [calculate_impact] using foldl_impact_step plants ⟨0, 0, 0⟩

theorem add_xp_badges (a : Nat) (s : Session) :
    (add_xp a s).user_profile.badges = s.user_profile.badges := rfl

theorem add_xp_planted (a : Nat) (s : Session) :
    (add_xp a s).planted_trees = s.planted_trees := rfl

theorem add_xp_xp (a : Nat) (s : Session) :
    (add_xp a s).user_profile.xp = s.user_profile.xp + a := rfl

theorem add_xp_badge_names (a : Nat) (s : Session) :
    badge_names (add_xp a s) = badge_names s := rfl

/-- `award_badge` is a strict no-op when the badge name is already held. -/
theorem award_badge_of_mem {n : String} {s : Session} (i d : String) (t : Int)
    (h : n ∈ badge_names s) : award_badge n i d t s = s := by
  unfold award_badge
  simp [h]

/-- A first-time `award_badge` appends the stamped badge and adds exactly 50 XP. -/
theorem award_badge_of_not_mem {n : String} {s : Session} (i d : String) (t : Int)
    (h : n ∉ badge_names s) :
    (award_badge n i d t s).user_profile.badges =
      s.user_profile.badges ++ [⟨n, i, d, t⟩] ∧
    (award_badge n i d t s).user_profile.xp = s.user_profile.xp + 50 := by
  unfold award_badge
  simp [h, add_xp]

theorem award_badge_planted (n i d : String) (t : Int) (s : Session) :
    (award_badge n i d t s).planted_trees = s.planted_trees := by
  unfold award_badge; split <;> rfl

theorem award_badge_co2 (n i d : String) (t : Int) (s : Session) :
    (award_badge n i d t s).user_profile.total_co2_offset =
      s.user_profile.total_co2_offset := by
  unfold award_badge; split <;> rfl

theorem award_badge_streak (n i d : String) (t : Int) (s : Session) :
    (award_badge n i d t s).user_profile.streak_days = s.user_profile.streak_days := by
  unfold award_badge; split <;> rfl

/-- The XP change of `award_badge`: +50 only when the badge is new. -/
theorem award_badge_xp (n i d : String) (t : Int) (s : Session) :
    (award_badge n i d t s).user_profile.xp =
      s.user_profile.xp + (if n ∈ badge_names s then 0 else 50) := by
  unfold award_badge; split <;> simp [add_xp]

/-- Membership in the badge set after `award_badge`. -/
theorem mem_badge_names_award (b n i d : String) (t : Int) (s : Session) :
    b ∈ badge_names (award_badge n i d t s) ↔ b ∈ badge_names s ∨ b = n := by
  unfold award_badge
  split
  · rename_i h
    constructor
    · exact Or.inl
    · rintro (hb | rfl)
      · exact hb
      · exact h
  · simp [badge_names, add_xp]

/-- Membership in the badge set after one conditional rule of the badge table. -/
theorem mem_badge_names_award_ite (c : Prop) [Decidable c] (b n i d : String) (t : Int)
    (s : Session) :
    b ∈ badge_names (if c then award_badge n i d t s else s) ↔
      b ∈ badge_names s ∨ (c ∧ b = n) := by
  split
  · rw [mem_badge_names_award]; tauto
  · tauto

theorem planted_award_ite (c : Prop) [Decidable c] (n i d : String) (t : Int)
    (s : Session) :
    (if c then award_badge n i d t s else s).planted_trees = s.planted_trees := by
  split <;> simp [award_badge_planted]

theorem co2_award_ite (c : Prop) [Decidable c] (n i d : String) (t : Int) (s : Session) :
    (if c then award_badge n i d t s else s).user_profile.total_co2_offset =
      s.user_profile.total_co2_offset := by
  split <;> simp [award_badge_co2]

/-- Membership in the badge set after the first five rules of the table. -/
theorem mem_badge_names_pre (today : Int) (s : Session) (b : String) :
    b ∈ badge_names (check_badges_pre_rising today s) ↔
      b ∈ badge_names s
      ∨ (1 ≤ s.planted_trees.length ∧ b = "First Sprout")
      ∨ (10 ≤ s.planted_trees.length ∧ b = "Tree Hugger")
      ∨ (5 ≤ (s.planted_trees.filter (fun p => p.health = some "Excellent")).length
          ∧ b = "Green Thumb")
      ∨ (5 ≤ (s.planted_trees.filter (fun p => p.space_required.isSome)).length
          ∧ b = "Balcony Boss")
      ∨ ((100 : ℚ) ≤ s.user_profile.total_co2_offset ∧ b = "Carbon Hero") := by
  simp only [check_badges_pre_rising, mem_badge_names_award_ite, planted_award_ite,
    co2_award_ite]
  simp only [or_assoc]

/-- Membership in the badge set after a full `check_and_award_badges` pass: exactly the
six-rule table, where the Rising Star rule reads the level as it stands after the first
five rules (each award may add +50 XP and so bump the level). -/
theorem mem_badge_names_check (today : Int) (s : Session) (b : String) :
    b ∈ badge_names (check_and_award_badges today s) ↔
      b ∈ badge_names s
      ∨ (1 ≤ s.planted_trees.length ∧ b = "First Sprout")
      ∨ (10 ≤ s.planted_trees.length ∧ b = "Tree Hugger")
      ∨ (5 ≤ (s.planted_trees.filter (fun p => p.health = some "Excellent")).length
          ∧ b = "Green Thumb")
      ∨ (5 ≤ (s.planted_trees.filter (fun p => p.space_required.isSome)).length
          ∧ b = "Balcony Boss")
      ∨ ((100 : ℚ) ≤ s.user_profile.total_co2_offset ∧ b = "Carbon Hero")
      ∨ (3 ≤ (check_badges_pre_rising today s).user_profile.level ∧ b = "Rising Star") := by
  simp only [check_and_award_badges, mem_badge_names_award_ite, mem_badge_names_pre]
  simp only [or_assoc]

/-- Awarding preserves "this badge name occurs at most once". -/
theorem count_le_one_award {b : String} {s : Session} (n i d : String) (t : Int)
    (h : (badge_names s).count b ≤ 1) :
    (badge_names (award_badge n i d t s)).count b ≤ 1 := by
  unfold award_badge
  split
  · exact h
  · rename_i hn
    simp only [badge_names, add_xp] at *
    rcases eq_or_ne b n with rfl | hne
    · have : (s.user_profile.badges.map BadgeEntry.name).count b = 0 :=
        List.count_eq_zero.mpr hn
      simp [List.count_append, this]
    · simp [List.count_append, List.count_singleton, hne]
      omega

theorem count_le_one_award_ite (c : Prop) [Decidable c] {b : String} {s : Session}
    (n i d : String) (t : Int) (h : (badge_names s).count b ≤ 1) :
    (badge_names (if c then award_badge n i d t s else s)).count b ≤ 1 := by
  split
  · exact count_le_one_award n i d t h
  · exact h

/-- A full badge pass preserves "this badge name occurs at most once". -/
theorem count_le_one_check (today : Int) {s : Session} {b : String}
    (h : (badge_names s).count b ≤ 1) :
    (badge_names (check_and_award_badges today s)).count b ≤ 1 := by
  simp only [check_and_award_badges, check_badges_pre_rising]
  apply count_le_one_award_ite
  apply count_le_one_award_ite
  apply count_le_one_award_ite
  apply count_le_one_award_ite
  apply count_le_one_award_ite
  apply count_le_one_award_ite
  exact h

/-- `update_streak` with no usable prior record: reset the streak to 1. -/
theorem update_streak_none (today : Int) {s : Session}
    (h : s.user_profile.last_active_date = none) :
    update_streak today s =
      { s with user_profile :=
          { s.user_profile with
            streak_days := 1
            last_active_date := some today } } := by
  simp only [update_streak, h]

/-- `update_streak` on the same day: only `last_active_date` is refreshed. -/
theorem update_streak_same (today : Int) {s : Session} {last : Int}
    (h : s.user_profile.last_active_date = some last) (hd : today - last = 0) :
    update_streak today s =
      { s with user_profile :=
          { s.user_profile with last_active_date := some today } } := by
  simp only [update_streak, h]
  simp [hd]

/-- `update_streak` on a consecutive day, off the 7/30/100 milestones: the streak
increments and nothing else changes but `last_active_date`. -/
theorem update_streak_yesterday (today : Int) {s : Session} {last : Int}
    (h : s.user_profile.last_active_date = some last) (hd : today - last = 1)
    (hm : ¬(s.user_profile.streak_days + 1 = 7 ∨ s.user_profile.streak_days + 1 = 30 ∨
            s.user_profile.streak_days + 1 = 100)) :
    update_streak today s =
      { s with user_profile :=
          { s.user_profile with
            streak_days := s.user_profile.streak_days + 1
            last_active_date := some today } } := by
  simp only [update_streak, h]
  have hm2 : ¬(s.user_profile.streak_days = 6 ∨ s.user_profile.streak_days = 29 ∨
      s.user_profile.streak_days = 99) := by omega
  simp [hd, hm2]

/-- `update_streak` on a consecutive day hitting the 30 or 100 milestone: the streak
increments and the `streak × 10` XP bonus is granted. -/
theorem update_streak_milestone_30_100 (today : Int) {s : Session} {last : Int}
    (h : s.user_profile.last_active_date = some last) (hd : today - last = 1)
    (hm : s.user_profile.streak_days + 1 = 30 ∨ s.user_profile.streak_days + 1 = 100) :
    (update_streak today s).user_profile.streak_days = s.user_profile.streak_days + 1 ∧
    (update_streak today s).user_profile.xp =
      s.user_profile.xp + (s.user_profile.streak_days + 1) * 10 ∧
    (update_streak today s).user_profile.last_active_date = some today := by
  simp only [update_streak, h]
  rcases hm with hm | hm <;>
    · have hm2 : s.user_profile.streak_days = 29 ∨ s.user_profile.streak_days = 99 := by omega
      rcases hm2 with hm2 | hm2 <;> simp [hd, hm2, add_xp]

/-- `update_streak` on a consecutive day hitting the 7-day milestone: the streak
increments, the 70 XP bonus is granted, and the Week Warrior badge adds another 50 XP
unless it is already held. -/
theorem update_streak_milestone_7 (today : Int) {s : Session} {last : Int}
    (h : s.user_profile.last_active_date = some last) (hd : today - last = 1)
    (hm : s.user_profile.streak_days + 1 = 7) :
    (update_streak today s).user_profile.streak_days = s.user_profile.streak_days + 1 ∧
    (update_streak today s).user_profile.xp =
      s.user_profile.xp + 70 +
        (if "Week Warrior" ∈ badge_names s then 0 else 50) ∧
    (update_streak today s).user_profile.last_active_date = some today := by
  simp only [update_streak, h]
  have hm2 : s.user_profile.streak_days = 6 := by omega
  simp [hd, hm2, award_badge_xp, award_badge_streak, add_xp, badge_names]

/-- `update_streak` with a gap of more than one day (or a negative gap): reset to 1. -/
theorem update_streak_gap (today : Int) {s : Session} {last : Int}
    (h : s.user_profile.last_active_date = some last) (h0 : ¬(today - last = 0))
    (h1 : ¬(today - last = 1)) :
    update_streak today s =
      { s with user_profile :=
          { s.user_profile with
            streak_days := 1
            last_active_date := some today } } := by
  simp only [update_streak, h]
  simp [h0, h1]

/-- Three `update_streak` calls on consecutive days, starting from a streak of 0 with the
last activity the day before the first call: the streak reaches 3 and no XP is granted. -/
theorem update_streak_three_days (d : Int) (s : Session)
    (h0 : s.user_profile.streak_days = 0)
    (hl : s.user_profile.last_active_date = some d) :
    (update_streak (d + 3) (update_streak (d + 2)
        (update_streak (d + 1) s))).user_profile.streak_days = 3 ∧
    (update_streak (d + 3) (update_streak (d + 2)
        (update_streak (d + 1) s))).user_profile.xp = s.user_profile.xp := by
  have e1 := update_streak_yesterday (d + 1) hl (by omega) (by omega)
  have p1streak : (update_streak (d + 1) s).user_profile.streak_days = 1 := by
    rw [e1]; simp [h0]
  have p1last : (update_streak (d + 1) s).user_profile.last_active_date = some (d + 1) := by
    rw [e1]
  have p1xp : (update_streak (d + 1) s).user_profile.xp = s.user_profile.xp := by
    rw [e1]
  have e2 := update_streak_yesterday (d + 2) p1last (by omega)
    (by rw [p1streak]; decide)
  have p2streak : (update_streak (d + 2)
      (update_streak (d + 1) s)).user_profile.streak_days = 2 := by
    rw [e2]; simp [p1streak]
  have p2last : (update_streak (d + 2)
      (update_streak (d + 1) s)).user_profile.last_active_date = some (d + 2) := by
    rw [e2]
  have p2xp : (update_streak (d + 2)
      (update_streak (d + 1) s)).user_profile.xp = s.user_profile.xp := by
    rw [e2]; simp [p1xp]
  have e3 := update_streak_yesterday (d + 3) p2last (by omega)
    (by rw [p2streak]; decide)
  constructor
  · rw [e3]; simp [p2streak]
  · rw [e3]; simp [p2xp]

/-! ## Claim theorems -/

/-- Claim C1, amended: `add_xp` adds exactly `amount` to the XP and bumps the level by
exactly one precisely when the new XP total reaches the threshold of the *current* level,
`level * 500` — at most one level per call, even when the single addition crosses several
thresholds — leaving badges, streak and plants untouched. -/
theorem C1_add_xp_single_level (amount : Nat) (s : Session) :
    (add_xp amount s).user_profile.xp = s.user_profile.xp + amount ∧
    (add_xp amount s).user_profile.level =
      (if s.user_profile.level * 500 ≤ s.user_profile.xp + amount
       then s.user_profile.level + 1 else s.user_profile.level) ∧
    (add_xp amount s).user_profile.level ≤ s.user_profile.level + 1 ∧
    s.user_profile.level ≤ (add_xp amount s).user_profile.level ∧
    (add_xp amount s).user_profile.badges = s.user_profile.badges ∧
    (add_xp amount s).user_profile.streak_days = s.user_profile.streak_days ∧
    (add_xp amount s).planted_trees = s.planted_trees := by
  have hlev : (add_xp amount s).user_profile.level =
      (if s.user_profile.level * 500 ≤ s.user_profile.xp + amount
       then s.user_profile.level + 1 else s.user_profile.level) := rfl
  refine ⟨rfl, rfl, ?_, ?_, rfl, rfl, rfl⟩ <;> rw [hlev] <;> split <;> omega

/-- Claim C1, counterexample: on the fresh profile (level 1, XP 0), `add_xp 1000` crosses
both the 500 and the 1000 threshold.  The iterative rule of the claim (`spec_add_xp`) yields
level 3; the single check in the code yields level 2. -/
theorem C1_counterexample :
    (add_xp 1000 ⟨initial_user_profile 0, []⟩).user_profile.level = 2 ∧
    (spec_add_xp 1000 1 0).1 = 3 ∧
    (add_xp 1000 ⟨initial_user_profile 0, []⟩).user_profile.level ≠
      (spec_add_xp 1000 1 0).1 := by
  refine ⟨by decide, by decide, by decide⟩

/-- Claim C3: `calculate_impact` returns, for each of the carbon, oxygen and pollutant
attributes, the sum over all plants of the species base coefficient times the growth
factor of its stage; the factor table maps the five stages to 0.1/0.3/0.5/0.8/1.0;
a species name outside the coefficient tables uses the documented defaults (5.0/8.0/50.0)
instead of failing; and a freshly created plant (stage `Newly Planted`) contributes
coefficient × 0.1. -/
theorem C3_calculate_impact_sum (plants : List PlantedTree) :
    (calculate_impact plants).carbon_sequestered = (plants.map carbon_contribution).sum ∧
    (calculate_impact plants).oxygen_produced = (plants.map oxygen_contribution).sum ∧
    (calculate_impact plants).pollutants_removed = (plants.map pollutant_contribution).sum ∧
    get_growth_factor "Newly Planted" = 1/10 ∧
    get_growth_factor "Seedling" = 3/10 ∧
    get_growth_factor "Sapling" = 1/2 ∧
    get_growth_factor "Young Tree" = 4/5 ∧
    get_growth_factor "Mature Tree" = 1 ∧
    (∀ name, carbon_values.lookup name = none → get_base_carbon name = 5) ∧
    (∀ name, oxygen_values.lookup name = none → get_base_oxygen name = 8) ∧
    (∀ name, pollutant_values.lookup name = none → get_base_pollutants name = 50) ∧
    (∀ (p : PlantedTree) (rest : List PlantedTree), p.status = some "Newly Planted" →
      (calculate_impact (p :: rest)).carbon_sequestered =
        get_base_carbon p.name * (1/10) + (calculate_impact rest).carbon_sequestered ∧
      (calculate_impact (p :: rest)).oxygen_produced =
        get_base_oxygen p.name * (1/10) + (calculate_impact rest).oxygen_produced ∧
      (calculate_impact (p :: rest)).pollutants_removed =
        get_base_pollutants p.name * (1/10) + (calculate_impact rest).pollutants_removed) := by
  have hfac : get_growth_factor "Newly Planted" = 1/10 := by
    simp [get_growth_factor, growth_factors, List.lookup]; norm_num
  refine ⟨by rw [calculate_impact_eq], by rw [calculate_impact_eq], by rw [calculate_impact_eq],
    hfac,
    by simp [get_growth_factor, growth_factors, List.lookup]; norm_num,
    by simp [get_growth_factor, growth_factors, List.lookup]; norm_num,
    by simp [get_growth_factor, growth_factors, List.lookup]; norm_num,
    by simp [get_growth_factor, growth_factors, List.lookup]; norm_num,
    ?_, ?_, ?_, ?_⟩
  · intro name h; simp [get_base_carbon, h]; norm_num
  · intro name h; simp [get_base_oxygen, h]; norm_num
  · intro name h; simp [get_base_pollutants, h]; norm_num
  · intro p rest h
    rw [calculate_impact_eq, calculate_impact_eq]
    simp [carbon_contribution, oxygen_contribution, pollutant_contribution, h, hfac]

/-- Claim C3, witness: the hypotheses instantiated concretely — `Dragonfruit` is outside
every coefficient table and falls back to the defaults, and a fresh `Neem` plant
contributes `15.3 × 0.1` carbon. -/
theorem C3_witness :
    (carbon_values.lookup "Dragonfruit" = none ∧ get_base_carbon "Dragonfruit" = 5) ∧
    ((⟨"id1", "Neem", some "Newly Planted", none, none⟩ : PlantedTree).status
        = some "Newly Planted" ∧
      (calculate_impact [⟨"id1", "Neem", some "Newly Planted", none, none⟩]).carbon_sequestered
        = get_base_carbon "Neem" * (1/10) + (calculate_impact []).carbon_sequestered) := by
  obtain ⟨-, -, -, -, -, -, -, -, hc, -, -, hfresh⟩ :=
    C3_calculate_impact_sum []
  exact ⟨⟨by decide, hc "Dragonfruit" (by decide)⟩,
    ⟨rfl, (hfresh ⟨"id1", "Neem", some "Newly Planted", none, none⟩ [] rfl).1⟩⟩

/-- Claim C10: the stage-to-factor lookup is total — any stage string outside the five
enumerated stages yields the default factor 0.5, and `calculate_impact` still counts such
a plant, contributing exactly half of each of its species base coefficients. -/
theorem C10_unknown_stage_half (st : String)
    (h : st ∉ ["Newly Planted", "Seedling", "Sapling", "Young Tree", "Mature Tree"]) :
    get_growth_factor st = 1/2 ∧
    ∀ (p : PlantedTree) (rest : List PlantedTree), p.status = some st →
      (calculate_impact (p :: rest)).carbon_sequestered =
        get_base_carbon p.name * (1/2) + (calculate_impact rest).carbon_sequestered ∧
      (calculate_impact (p :: rest)).oxygen_produced =
        get_base_oxygen p.name * (1/2) + (calculate_impact rest).oxygen_produced ∧
      (calculate_impact (p :: rest)).pollutants_removed =
        get_base_pollutants p.name * (1/2) + (calculate_impact rest).pollutants_removed := by
  simp only [List.mem_cons, List.mem_singleton, not_or] at h
  obtain ⟨h1, h2, h3, h4, h5, -⟩ := h
  have e1 : (st == "Newly Planted") = false := beq_eq_false_iff_ne.mpr h1
  have e2 : (st == "Seedling") = false := beq_eq_false_iff_ne.mpr h2
  have e3 : (st == "Sapling") = false := beq_eq_false_iff_ne.mpr h3
  have e4 : (st == "Young Tree") = false := beq_eq_false_iff_ne.mpr h4
  have e5 : (st == "Mature Tree") = false := beq_eq_false_iff_ne.mpr h5
  have hfac : get_growth_factor st = 1/2 := by
    simp [get_growth_factor, growth_factors, List.lookup, e1, e2, e3, e4, e5]
    norm_num
  refine ⟨hfac, ?_⟩
  intro p rest hp
  rw [calculate_impact_eq, calculate_impact_eq]
  simp [carbon_contribution, oxygen_contribution, pollutant_contribution, hp, hfac]

/-- Claim C10, witness: the unrecognised stage `"Flowering"` on a `Banyan` plant. -/
theorem C10_witness :
    ("Flowering" ∉ ["Newly Planted", "Seedling", "Sapling", "Young Tree", "Mature Tree"]) ∧
    get_growth_factor "Flowering" = 1/2 ∧
    (calculate_impact [⟨"id2", "Banyan", some "Flowering", none, none⟩]).carbon_sequestered =
      get_base_carbon "Banyan" * (1/2) + (calculate_impact []).carbon_sequestered := by
  obtain ⟨hfac, hcontrib⟩ := C10_unknown_stage_half "Flowering" (by decide)
  exact ⟨by decide, hfac,
    (hcontrib ⟨"id2", "Banyan", some "Flowering", none, none⟩ [] rfl).1⟩

/-- Claim C4, amended: each `check_and_award_badges` call evaluates a *six*-rule table —
First Sprout (≥1 plant), Tree Hugger (≥10), Green Thumb (≥5 excellent), Balcony Boss
(≥5 balcony plants), Carbon Hero (≥100 kg CO₂), Rising Star (level ≥3, read after the
+50 XP bonuses of the first five rules) — awarding every badge whose condition holds; it never
evaluates a streak condition and never awards Week Warrior (that badge is granted only by
`update_streak` at the moment the streak reaches exactly 7). -/
theorem C4_badge_rule_table (today : Int) (s : Session) :
    (∀ b, b ∈ badge_names (check_and_award_badges today s) ↔
      b ∈ badge_names s
      ∨ (1 ≤ s.planted_trees.length ∧ b = "First Sprout")
      ∨ (10 ≤ s.planted_trees.length ∧ b = "Tree Hugger")
      ∨ (5 ≤ (s.planted_trees.filter (fun p => p.health = some "Excellent")).length
          ∧ b = "Green Thumb")
      ∨ (5 ≤ (s.planted_trees.filter (fun p => p.space_required.isSome)).length
          ∧ b = "Balcony Boss")
      ∨ ((100 : ℚ) ≤ s.user_profile.total_co2_offset ∧ b = "Carbon Hero")
      ∨ (3 ≤ (check_badges_pre_rising today s).user_profile.level ∧ b = "Rising Star")) ∧
    ("Week Warrior" ∈ badge_names (check_and_award_badges today s) ↔
      "Week Warrior" ∈ badge_names s) := by
  refine ⟨mem_badge_names_check today s, ?_⟩
  rw [mem_badge_names_check]
  constructor
  · rintro (hb | ⟨-, hb⟩ | ⟨-, hb⟩ | ⟨-, hb⟩ | ⟨-, hb⟩ | ⟨-, hb⟩ | ⟨-, hb⟩)
    · exact hb
    all_goals exact absurd hb (by decide)
  · exact Or.inl

/-- Claim C4, counterexample: a profile with a 10-day streak (≥ 7) gains no Week Warrior
badge from `check_and_award_badges` — the claimed streak rule does not exist there. -/
theorem C4_counterexample :
    7 ≤ (⟨{ initial_user_profile 0 with streak_days := 10 }, []⟩ :
        Session).user_profile.streak_days ∧
    "Week Warrior" ∉ badge_names (check_and_award_badges 0
      (⟨{ initial_user_profile 0 with streak_days := 10 }, []⟩ : Session)) := by
  constructor
  · show 7 ≤ 10; omega
  · rw [mem_badge_names_check]
    simp [badge_names, initial_user_profile]

/-- Claim C7: `award_badge` is idempotent in effect — a held name is a strict no-op, a
first-time award appends the stamped badge and grants exactly +50 XP — and a user with
exactly 10 tracked plants and no Tree Hugger badge holds it exactly once after two
consecutive `check_and_award_badges` passes. -/
theorem C7_award_badge_idempotent :
    (∀ (n i d : String) (t : Int) (s : Session),
        n ∈ badge_names s → award_badge n i d t s = s) ∧
    (∀ (n i d : String) (t : Int) (s : Session), n ∉ badge_names s →
        (award_badge n i d t s).user_profile.badges =
          s.user_profile.badges ++ [⟨n, i, d, t⟩] ∧
        (award_badge n i d t s).user_profile.xp = s.user_profile.xp + 50) ∧
    (∀ (t1 t2 : Int) (s : Session), s.planted_trees.length = 10 →
        "Tree Hugger" ∉ badge_names s →
        (badge_names (check_and_award_badges t2
            (check_and_award_badges t1 s))).count "Tree Hugger" = 1) := by
  refine ⟨fun n i d t s h => award_badge_of_mem i d t h,
    fun n i d t s h => award_badge_of_not_mem i d t h, ?_⟩
  intro t1 t2 s hlen hnot
  have h0 : (badge_names s).count "Tree Hugger" ≤ 1 := by
    rw [List.count_eq_zero.mpr hnot]
    omega
  have h2 := count_le_one_check t2 (count_le_one_check t1 h0)
  have hm1 : "Tree Hugger" ∈ badge_names (check_and_award_badges t1 s) := by
    rw [mem_badge_names_check]
    exact Or.inr (Or.inr (Or.inl ⟨by omega, rfl⟩))
  have hm2 : "Tree Hugger" ∈ badge_names (check_and_award_badges t2
      (check_and_award_badges t1 s)) := by
    rw [mem_badge_names_check]
    exact Or.inl hm1
  have hpos := List.count_pos_iff.mpr hm2
  omega

/-- Claim C7, witness: a fresh profile with exactly 10 tracked plants holds Tree Hugger
exactly once after two badge passes. -/
theorem C7_witness :
    (⟨initial_user_profile 0, sample_plants 10⟩ : Session).planted_trees.length = 10 ∧
    "Tree Hugger" ∉ badge_names (⟨initial_user_profile 0, sample_plants 10⟩ : Session) ∧
    (badge_names (check_and_award_badges 1 (check_and_award_badges 0
        (⟨initial_user_profile 0, sample_plants 10⟩ : Session)))).count "Tree Hugger" = 1 :=
  ⟨by decide, by decide,
    C7_award_badge_idempotent.2.2 0 1 ⟨initial_user_profile 0, sample_plants 10⟩
      (by decide) (by decide)⟩

/-- Claim C8: `update_streak` increments the streak by one exactly when the last-active
date is the day before today — awarding the `streak × 10` XP bonus only at the 7/30/100
marks (at 7 the Week Warrior badge may add a further 50) — leaves the streak unchanged
when the last-active date is today, resets it to 1 in every other case (gap ≠ 1 day or no
usable prior record), and always sets the last-active date to today; three calls on
consecutive days from a zero streak yield streak 3 with no XP bonus. -/
theorem C8_update_streak (today : Int) (s : Session) :
    (update_streak today s).user_profile.last_active_date = some today ∧
    (s.user_profile.last_active_date = none →
      (update_streak today s).user_profile.streak_days = 1 ∧
      (update_streak today s).user_profile.xp = s.user_profile.xp) ∧
    (∀ last, s.user_profile.last_active_date = some last → today - last = 0 →
      (update_streak today s).user_profile.streak_days = s.user_profile.streak_days ∧
      (update_streak today s).user_profile.xp = s.user_profile.xp ∧
      (update_streak today s).user_profile.badges = s.user_profile.badges) ∧
    (∀ last, s.user_profile.last_active_date = some last → today - last = 1 →
      (update_streak today s).user_profile.streak_days =
        s.user_profile.streak_days + 1 ∧
      (¬(s.user_profile.streak_days + 1 = 7 ∨ s.user_profile.streak_days + 1 = 30 ∨
          s.user_profile.streak_days + 1 = 100) →
        (update_streak today s).user_profile.xp = s.user_profile.xp) ∧
      ((s.user_profile.streak_days + 1 = 30 ∨ s.user_profile.streak_days + 1 = 100) →
        (update_streak today s).user_profile.xp =
          s.user_profile.xp + (s.user_profile.streak_days + 1) * 10) ∧
      (s.user_profile.streak_days + 1 = 7 →
        (update_streak today s).user_profile.xp =
          s.user_profile.xp + 70 +
            (if "Week Warrior" ∈ badge_names s then 0 else 50))) ∧
    (∀ last, s.user_profile.last_active_date = some last → today - last ≠ 0 →
        today - last ≠ 1 →
      (update_streak today s).user_profile.streak_days = 1 ∧
      (update_streak today s).user_profile.xp = s.user_profile.xp) ∧
    (∀ d : Int, s.user_profile.streak_days = 0 →
        s.user_profile.last_active_date = some d →
      (update_streak (d + 3) (update_streak (d + 2)
          (update_streak (d + 1) s))).user_profile.streak_days = 3 ∧
      (update_streak (d + 3) (update_streak (d + 2)
          (update_streak (d + 1) s))).user_profile.xp = s.user_profile.xp) := by
  refine ⟨rfl, ?_, ?_, ?_, ?_, ?_⟩
  · intro h
    rw [update_streak_none today h]
    exact ⟨rfl, rfl⟩
  · intro last h hd
    rw [update_streak_same today h hd]
    exact ⟨rfl, rfl, rfl⟩
  · intro last h hd
    by_cases hm : s.user_profile.streak_days + 1 = 7 ∨ s.user_profile.streak_days + 1 = 30 ∨
        s.user_profile.streak_days + 1 = 100
    · rcases hm with hm7 | hm30100
      · obtain ⟨hs, hx, -⟩ := update_streak_milestone_7 today h hd hm7
        refine ⟨hs, fun hn => absurd (Or.inl hm7) hn, fun h30 => by omega, fun _ => hx⟩
      · obtain ⟨hs, hx, -⟩ := update_streak_milestone_30_100 today h hd hm30100
        refine ⟨hs, fun hn => absurd (Or.inr hm30100) hn, fun _ => hx, fun h7 => by omega⟩
    · rw [update_streak_yesterday today h hd hm]
      refine ⟨rfl, fun _ => rfl, fun h30 => absurd (Or.inr h30) hm,
        fun h7 => absurd (Or.inl h7) hm⟩
  · intro last h h0 h1
    rw [update_streak_gap today h h0 h1]
    exact ⟨rfl, rfl⟩
  · intro d h0 hl
    exact update_streak_three_days d s h0 hl

/-- Claim C8, witness: the fresh profile (streak 0, last active on day 0) updated on days
1, 2 and 3 reaches streak 3 with no XP change. -/
theorem C8_witness :
    (⟨initial_user_profile 0, []⟩ : Session).user_profile.streak_days = 0 ∧
    (⟨initial_user_profile 0, []⟩ : Session).user_profile.last_active_date = some 0 ∧
    (update_streak (0 + 3) (update_streak (0 + 2) (update_streak (0 + 1)
        (⟨initial_user_profile 0, []⟩ : Session)))).user_profile.streak_days = 3 ∧
    (update_streak (0 + 3) (update_streak (0 + 2) (update_streak (0 + 1)
        (⟨initial_user_profile 0, []⟩ : Session)))).user_profile.xp =
      (⟨initial_user_profile 0, []⟩ : Session).user_profile.xp := by
  obtain ⟨-, -, -, -, -, hscen⟩ := C8_update_streak 0 ⟨initial_user_profile 0, []⟩
  obtain ⟨h3, hxp⟩ := hscen 0 rfl rfl
  exact ⟨rfl, rfl, h3, hxp⟩

/-- Stability of `mergeSort` in filter form: the sublist of elements satisfying a
predicate that ties the comparator is untouched by the sort. -/
theorem mergeSort_filter_stable {α : Type} (le : α → α → Bool) (l : List α) (p : α → Bool)
    (htrans : ∀ (a b c : α), le a b → le b c → le a c)
    (htotal : ∀ (a b : α), le a b || le b a)
    (hp : ∀ a b, p a = true → p b = true → le a b = true) :
    (l.mergeSort le).filter p = l.filter p := by
  have hall : ∀ a ∈ l.filter p, p a = true := fun a ha => List.of_mem_filter ha
  have hpw : (l.filter p).Pairwise (fun a b => le a b) :=
    List.pairwise_of_forall_mem_list fun a ha b hb => hp a b (hall a ha) (hall b hb)
  have h1 : List.Sublist (l.filter p) (l.mergeSort le) :=
    List.sublist_mergeSort htrans htotal hpw (List.filter_sublist l)
  have h2 : List.Sublist (l.filter p) ((l.mergeSort le).filter p) := by
    have h3 := h1.filter p
    rwa [List.filter_eq_self.mpr hall] at h3
  have hlen : ((l.mergeSort le).filter p).length = (l.filter p).length :=
    ((l.mergeSort_perm le).filter p).length_eq
  exact (h2.eq_of_length hlen.symm).symm

theorem rec_le_trans : ∀ (a b c : RecTree), rec_le a b → rec_le b c → rec_le a c := by
  intro a b c hab hbc
  simp only [rec_le, decide_eq_true_eq] at *
  omega

theorem rec_le_total : ∀ (a b : RecTree), rec_le a b || rec_le b a := by
  intro a b
  simp only [rec_le, Bool.or_eq_true, decide_eq_true_eq]
  omega

theorem balcony_le_trans : ∀ (a b c : ScoredBalconyPlant),
    balcony_le a b → balcony_le b c → balcony_le a c := by
  intro a b c hab hbc
  simp only [balcony_le, decide_eq_true_eq] at *
  omega

theorem balcony_le_total : ∀ (a b : ScoredBalconyPlant),
    balcony_le a b || balcony_le b a := by
  intro a b
  simp only [balcony_le, Bool.or_eq_true, decide_eq_true_eq]
  omega

/-- What membership in the balcony result implies: the plant is a catalog entry that
passed the filter, carrying its score. -/
theorem mem_balcony_recommendations {space_size : String} {sunlight_hours : Int}
    {purposes : List String} {r : ScoredBalconyPlant}
    (hr : r ∈ get_balcony_recommendations space_size sunlight_hours purposes) :
    r.plant ∈ get_balcony_plants_data ∧
    balcony_keep sunlight_hours purposes (space_map space_size) r.plant = true ∧
    r.suitability_score = balcony_score purposes r.plant := by
  unfold get_balcony_recommendations at hr
  have h1 := List.mem_of_mem_take hr
  rw [List.mem_mergeSort] at h1
  simp only [List.mem_map] at h1
  obtain ⟨pl, hpl, rfl⟩ := h1
  have h2 := List.mem_filter.mp hpl
  exact ⟨h2.1, h2.2, rfl⟩

/-- A kept plant under low sunlight carries "Low" in its sunlight band. -/
theorem balcony_keep_low {sunlight_hours : Int} {purposes allowed : List String}
    {plant : BalconyPlant}
    (hk : balcony_keep sunlight_hours purposes allowed plant = true)
    (h4 : sunlight_hours < 4) : strContains plant.sunlight_need "Low" = true := by
  by_cases hB : strContains plant.sunlight_need "Low" = true
  · exact hB
  · exfalso
    unfold balcony_keep at hk
    by_cases hsp : plant.space_required ∉ allowed
    · rw [if_pos hsp] at hk
      simp at hk
    · rw [if_neg hsp, if_pos ⟨h4, hB⟩] at hk
      simp at hk

/-- A kept plant under sunlight of 8 hours or more carries "High" in its band: the code
excludes every other plant there, low-need plants included. -/
theorem balcony_keep_high {sunlight_hours : Int} {purposes allowed : List String}
    {plant : BalconyPlant}
    (hk : balcony_keep sunlight_hours purposes allowed plant = true)
    (h8 : 8 ≤ sunlight_hours) : strContains plant.sunlight_need "High" = true := by
  by_cases hB : strContains plant.sunlight_need "High" = true
  · exact hB
  · exfalso
    unfold balcony_keep at hk
    by_cases hsp : plant.space_required ∉ allowed
    · rw [if_pos hsp] at hk
      simp at hk
    · rw [if_neg hsp, if_neg (fun hand => by omega : ¬(sunlight_hours < 4 ∧
          ¬strContains plant.sunlight_need "Low" = true)),
        if_pos ⟨by omega, hB, by omega⟩] at hk
      simp at hk

/-- Claim C2: `get_recommendations` returns only climate-suitable species; with at least
3 soil survivors it is exactly the scored soil-suitable list, sorted descending by score
with stable ties (equal scores keep catalog insertion order); with fewer than 3 soil
survivors it falls back to the climate-only filtered list. -/
theorem C2_get_recommendations (cd : ClimateData) (sd : SoilData) :
    (∀ r ∈ get_recommendations cd sd, cd.climate_zone ∈ r.tree.climate_suitability) ∧
    ((soil_suitable_trees cd sd).length < 3 →
      get_recommendations cd sd =
        (climate_suitable_trees cd).map (fun t => ⟨t, none⟩)) ∧
    (3 ≤ (soil_suitable_trees cd sd).length →
      (get_recommendations cd sd).Perm (scored_trees cd sd) ∧
      (∀ r ∈ get_recommendations cd sd,
        r.recommendation_score = some (score_tree cd r.tree)) ∧
      (get_recommendations cd sd).Pairwise
        (fun a b => b.recommendation_score.getD 0 ≤ a.recommendation_score.getD 0) ∧
      (∀ sc : Nat,
        (get_recommendations cd sd).filter
            (fun r => r.recommendation_score = some sc) =
          (scored_trees cd sd).filter (fun r => r.recommendation_score = some sc))) := by
  refine ⟨?_, ?_, ?_⟩
  · intro r hr
    unfold get_recommendations at hr
    split at hr
    · simp only [List.mem_map] at hr
      obtain ⟨t, ht, rfl⟩ := hr
      have := (List.mem_filter.mp ht).2
      simpa using this
    · rw [List.mem_mergeSort] at hr
      unfold scored_trees at hr
      simp only [List.mem_map] at hr
      obtain ⟨t, ht, rfl⟩ := hr
      have := (List.mem_filter.mp (List.mem_filter.mp ht).1).2
      simpa using this
  · intro h
    unfold get_recommendations
    rw [if_pos h]
  · intro h
    have hif : get_recommendations cd sd = (scored_trees cd sd).mergeSort rec_le := by
      unfold get_recommendations
      rw [if_neg (by omega)]
    refine ⟨?_, ?_, ?_, ?_⟩
    · rw [hif]
      exact (scored_trees cd sd).mergeSort_perm rec_le
    · intro r hr
      rw [hif, List.mem_mergeSort] at hr
      unfold scored_trees at hr
      simp only [List.mem_map] at hr
      obtain ⟨t, -, rfl⟩ := hr
      rfl
    · rw [hif]
      have hs := List.sorted_mergeSort rec_le_trans rec_le_total (scored_trees cd sd)
      exact hs.imp (fun {a b} hab => by
        simpa [rec_le, decide_eq_true_eq] using hab)
    · intro sc
      rw [hif]
      apply mergeSort_filter_stable rec_le _ _ rec_le_trans rec_le_total
      intro a b ha hb
      simp only [decide_eq_true_eq] at ha hb
      simp [rec_le, ha, hb]

/-- Claim C2, witness: `Temperate`/`Clay` leaves only Eucalyptus soil-suitable (< 3), so
the climate-only fallback is returned; `Tropical`/`Loamy` keeps all 12 species (≥ 3), so
the scored, sorted list is returned. -/
theorem C2_witness :
    ((soil_suitable_trees ⟨"Temperate", 600, none⟩ ⟨"Clay"⟩).length < 3 ∧
      get_recommendations ⟨"Temperate", 600, none⟩ ⟨"Clay"⟩ =
        (climate_suitable_trees ⟨"Temperate", 600, none⟩).map (fun t => ⟨t, none⟩)) ∧
    (3 ≤ (soil_suitable_trees ⟨"Tropical", 600, some "High"⟩ ⟨"Loamy"⟩).length ∧
      (get_recommendations ⟨"Tropical", 600, some "High"⟩ ⟨"Loamy"⟩).Perm
        (scored_trees ⟨"Tropical", 600, some "High"⟩ ⟨"Loamy"⟩)) :=
  ⟨⟨by decide, (C2_get_recommendations ⟨"Temperate", 600, none⟩ ⟨"Clay"⟩).2.1 (by decide)⟩,
   ⟨by decide,
    ((C2_get_recommendations ⟨"Tropical", 600, some "High"⟩ ⟨"Loamy"⟩).2.2 (by decide)).1⟩⟩

/-- Claim C6, amended: the balcony result always has at most 9 entries, sorted descending
by suitability score; under low sunlight (< 4h) every returned plant carries "Low" in its
sunlight band (so all high-only species are excluded); but for 8h or more every returned
plant must carry "High" — low-need species are then excluded too, contrary to the claim.
For hours in [4, 8) the sunlight filter excludes nothing. -/
theorem C6_balcony_sunlight (space_size : String) (sunlight_hours : Int)
    (purposes : List String) :
    (get_balcony_recommendations space_size sunlight_hours purposes).length ≤ 9 ∧
    (get_balcony_recommendations space_size sunlight_hours purposes).Pairwise
      (fun a b => b.suitability_score ≤ a.suitability_score) ∧
    (sunlight_hours < 4 →
      ∀ r ∈ get_balcony_recommendations space_size sunlight_hours purposes,
        strContains r.plant.sunlight_need "Low" = true) ∧
    (8 ≤ sunlight_hours →
      ∀ r ∈ get_balcony_recommendations space_size sunlight_hours purposes,
        strContains r.plant.sunlight_need "High" = true) ∧
    (4 ≤ sunlight_hours → sunlight_hours < 8 →
      ∀ (plant : BalconyPlant) (allowed : List String),
        balcony_keep sunlight_hours purposes allowed plant =
          (if plant.space_required ∉ allowed then false
           else if purposes ≠ [] then
             purposes.any (fun purpose => purpose ∈ plant.purposes)
           else true)) := by
  refine ⟨?_, ?_, ?_, ?_, ?_⟩
  · unfold get_balcony_recommendations
    simp [List.length_take]
  · unfold get_balcony_recommendations
    have hs := List.sorted_mergeSort balcony_le_trans balcony_le_total
      ((get_balcony_plants_data.filter
        (balcony_keep sunlight_hours purposes (space_map space_size))).map
        (fun pl => ⟨pl, balcony_score purposes pl⟩))
    exact List.Pairwise.sublist (List.take_sublist 9 _)
      (hs.imp fun {a b} hab => by simpa [balcony_le, decide_eq_true_eq] using hab)
  · intro h4 r hr
    exact balcony_keep_low (mem_balcony_recommendations hr).2.1 h4
  · intro h8 r hr
    exact balcony_keep_high (mem_balcony_recommendations hr).2.1 h8
  · intro hge hlt plant allowed
    unfold balcony_keep
    by_cases hsp : plant.space_required ∉ allowed
    · rw [if_pos hsp, if_pos hsp]
    · rw [if_neg hsp, if_neg hsp,
        if_neg (fun hand => by omega : ¬(sunlight_hours < 4 ∧
          ¬strContains plant.sunlight_need "Low" = true)),
        if_neg (fun hand => by omega : ¬(6 ≤ sunlight_hours ∧
          ¬strContains plant.sunlight_need "High" = true ∧ ¬sunlight_hours < 8))]

/-- Claim C6, witness: concrete instantiations of the bounds — at 2 h of sunlight every
returned plant is Low-band, and the result of scenario B has at most 9 entries. -/
theorem C6_witness :
    (get_balcony_recommendations "Very Small (≤ 0.5 m²)" 2 []).length ≤ 9 ∧
    (∀ r ∈ get_balcony_recommendations "Very Small (≤ 0.5 m²)" 2 [],
      strContains r.plant.sunlight_need "Low" = true) := by
  obtain ⟨hlen, -, hlow, -, -⟩ :=
    C6_balcony_sunlight "Very Small (≤ 0.5 m²)" 2 []
  exact ⟨hlen, hlow (by decide)⟩

/-- Claim C6, counterexample: Snake Plant is space-compatible and low-sunlight-need, yet
at 8 hours of (abundant) sunlight the filter excludes it — the whole result is empty —
because the code keeps only "High"-band plants once `sunlight_hours ≥ 8`. -/
theorem C6_counterexample :
    (⟨"Snake Plant (Sansevieria)", "Very Small", "Low (2-6 hours)",
        ["Air Purification", "Low Maintenance"], "Very Easy"⟩ : BalconyPlant) ∈
      get_balcony_plants_data ∧
    strContains "Low (2-6 hours)" "Low" = true ∧
    "Very Small" ∈ space_map "Very Small (≤ 0.5 m²)" ∧
    get_balcony_recommendations "Very Small (≤ 0.5 m²)" 8 [] = [] := by
  refine ⟨by decide, by decide, by decide, ?_⟩
  have hf : get_balcony_plants_data.filter
      (balcony_keep 8 [] (space_map "Very Small (≤ 0.5 m²)")) = [] := by decide
  simp only [get_balcony_recommendations]
  rw [hf]
  simp

/-- Claim C5 (code bug): the fertilizer branches of `suggest_next_action` are dead code —
`days_since ≥ 3` (resp. `≥ 7`) is checked first and subsumes `≥ 14` (resp. `≥ 21`) — so at
14 days a frequent-class plant and at 21 days a sparse-class plant both get the watering
message, never the fertilizer reminder the spec describes. -/
theorem C5_fertilizer_unreachable :
    suggest_next_action "Tulsi (Holy Basil)" [WateringEntry.timestamp 0] 14 =
      "💧 Water needed! Last watered 14 days ago" ∧
    suggest_next_action "Tulsi (Holy Basil)" [WateringEntry.timestamp 0] 14 ≠
      "🌱 Time to add fertilizer" ∧
    suggest_next_action "Neem" [WateringEntry.timestamp 0] 21 =
      "💧 Water needed! Last watered 21 days ago" ∧
    suggest_next_action "Neem" [WateringEntry.timestamp 0] 21 ≠
      "🌱 Consider adding organic fertilizer" :=
  ⟨by decide, by decide, by decide, by decide⟩

/-- Claim C9, amended: `detect_user_state` is the pure derivation (Explorer iff zero
plants), and the create/remove/login-load operations explicitly re-write the *stored*
`user_state` flag so that it stays consistent with the plant count; when the flag is
consistent, the sidebar (which reads the stored flag, not the count) agrees with the
derivation. -/
theorem C9_mode_flag (s : AppSession) (p : PlantedTree) (plant_id : String)
    (loaded : List PlantedTree) :
    (detect_user_state s.planted_trees = "EXPLORER" ↔ s.planted_trees = []) ∧
    mode_consistent (add_plant_to_garden_safe p s) ∧
    (mode_consistent s → mode_consistent (remove_plant plant_id s)) ∧
    mode_consistent (load_login_session loaded s) ∧
    (mode_consistent s → sidebar_mode s = detect_user_state s.planted_trees) := by
  refine ⟨?_, ?_, ?_, ?_, ?_⟩
  · unfold detect_user_state
    by_cases h : s.planted_trees.length = 0
    · rw [if_pos h]
      simp [List.length_eq_zero.mp h]
    · rw [if_neg h]
      constructor
      · intro he
        exact absurd he (by decide)
      · intro he
        rw [he] at h
        simp at h
  · unfold mode_consistent add_plant_to_garden_safe detect_user_state
    dsimp only
    rw [if_neg (by simp)]
  · intro h
    unfold mode_consistent remove_plant detect_user_state at *
    dsimp only
    by_cases hlen : (s.planted_trees.filter (fun q => q.id ≠ plant_id)).length = 0
    · rw [if_pos hlen, if_pos hlen]
    · rw [if_neg hlen, if_neg hlen]
      have hnz : ¬s.planted_trees.length = 0 := by
        intro h0
        rw [List.length_eq_zero.mp h0] at hlen
        simp at hlen
      rw [h, if_neg hnz]
  · unfold mode_consistent load_login_session detect_user_state
    by_cases hpos : 0 < loaded.length
    · rw [if_pos hpos]
      dsimp only
      rw [if_neg (by omega)]
    · rw [if_neg hpos]
      dsimp only
      simp
  · intro h
    unfold sidebar_mode
    by_cases he : s.user_state = "EXPLORER"
    · rw [if_pos he, ← h, he]
    · rw [if_neg he]
      unfold mode_consistent detect_user_state at h
      by_cases hlen : s.planted_trees.length = 0
      · rw [if_pos hlen] at h
        exact absurd h he
      · unfold detect_user_state
        rw [if_neg hlen]

/-- Claim C9, witness: the consistent empty session stays consistent through a create and
a remove, and its sidebar agrees with the derivation. -/
theorem C9_witness :
    mode_consistent (⟨[], "EXPLORER"⟩ : AppSession) ∧
    mode_consistent (add_plant_to_garden_safe ⟨"p1", "Neem", none, none, none⟩
      (⟨[], "EXPLORER"⟩ : AppSession)) ∧
    mode_consistent (remove_plant "p1" (⟨[], "EXPLORER"⟩ : AppSession)) ∧
    sidebar_mode (⟨[], "EXPLORER"⟩ : AppSession) =
      detect_user_state ((⟨[], "EXPLORER"⟩ : AppSession)).planted_trees := by
  obtain ⟨-, hadd, hrem, -, hside⟩ :=
    C9_mode_flag ⟨[], "EXPLORER"⟩ ⟨"p1", "Neem", none, none, none⟩ "p1" []
  have hc : mode_consistent (⟨[], "EXPLORER"⟩ : AppSession) := by decide
  exact ⟨hc, hadd, hrem hc, hside hc⟩

/-- Claim C9, counterexample: the mode *is* stored — an `AppSession` carrying one plant
but the stored flag "EXPLORER" is representable, and the sidebar (which reads the stored
flag per `app.py:1135-1147`) then shows Explorer while the pure derivation from the plant
count says Guardian: the claimed "never stored, recomputed at every observation point"
property fails. -/
theorem C9_counterexample :
    detect_user_state ((⟨[⟨"p1", "Neem", none, none, none⟩], "EXPLORER"⟩ :
        AppSession)).planted_trees = "GUARDIAN" ∧
    sidebar_mode (⟨[⟨"p1", "Neem", none, none, none⟩], "EXPLORER"⟩ : AppSession) =
      "EXPLORER" ∧
    sidebar_mode (⟨[⟨"p1", "Neem", none, none, none⟩], "EXPLORER"⟩ : AppSession) ≠
      detect_user_state ((⟨[⟨"p1", "Neem", none, none, none⟩], "EXPLORER"⟩ :
        AppSession)).planted_trees :=
  ⟨by decide, by decide, by decide⟩

end TreePlanner
